import Mathlib

/-
Verification development for the GladeDesk audio effect (src/src/lib.rs).

The per-sample signal pipeline, its parameter-smoothing reads, and the peak
metering are embedded shallowly over the real numbers: f32 values become
reals, the two channel history deques become lists, and the fallible channel
indexing (`get_mut(i).unwrap()`) becomes an `Option`-returning frame step so
that a panic is visible as `none`.
-/

namespace GladeDesk

/-- Time for the peak meter to decay by 12 dB after switching to complete
silence (lib.rs line 29: `PEAK_METER_DECAY_MS`). -/
def PEAK_METER_DECAY_MS : ℝ := 100

/-- Modelled from the spec: the minus-infinity dB sentinel of the host
library (nih_plug `util::MINUS_INFINITY_DB`, value -100 dB), which is not
under src/. The plugin stores it into both meters at construction
(lib.rs 122-123) and the display layer treats it as the silence floor. -/
def MINUS_INFINITY_DB : ℝ := -100

/-- Modelled from the spec: the matching minimum gain of the host library
(nih_plug `util::MINUS_INFINITY_GAIN` = 1e-5 = 10 ^ (-100 / 20)), not under
src/. -/
def MINUS_INFINITY_GAIN : ℝ := 1e-5

/-- Modelled from the spec: nih_plug `util::gain_to_db` (amplitude ratio to
decibels), a host-library helper not under src/: the gain is floored at
`MINUS_INFINITY_GAIN` and then `log10(gain) * 20` is returned. -/
noncomputable def gain_to_db (g : ℝ) : ℝ :=
  Real.logb 10 (max g MINUS_INFINITY_GAIN) * 20

/-- Modelled from the spec: nih_plug `util::db_to_gain` (decibels to
amplitude ratio), a host-library helper not under src/: `10 ^ (dbs * 0.05)`
for arguments above `MINUS_INFINITY_DB`, and 0 at or below it. -/
noncomputable def db_to_gain (dbs : ℝ) : ℝ :=
  if dbs > MINUS_INFINITY_DB then (10 : ℝ) ^ (dbs * 0.05) else 0

section CoreDefs

variable {α : Type} [LinearOrderedField α]

/-- Denormal guard (lib.rs 728-733): any sample whose magnitude is below
1.18e-23 is replaced by the fixed value 0.1 * 1.18e-17. -/
def dnormGuard (x : α) : α :=
  if |x| < 1.18e-23 then 0.1 * 1.18e-17 else x

/-- History buffer insertion (lib.rs 740-743): `push_front` of the new
sample followed by `pop_back` of the oldest one. -/
def historyPush (x : α) (h : List α) : List α :=
  (x :: h).dropLast

/-- Peak meter update (lib.rs 827-832 and 839-844): instantaneous attack
when the instant amplitude exceeds the stored value, one-pole decay blend
otherwise. -/
def meterUpdate (current inst dw : α) : α :=
  if inst > current then inst else current * dw + inst * (1 - dw)

/-- Tap bank sum (lib.rs 750-773): the sequential `+= / -=` accumulation
over the eight most recent history entries, with the skew term weighted by
each entry's own magnitude. Indices 2, 4 and 6 are subtracted. -/
def tapSum (v : List α) (c1 c2 c3 c4 c5 c6 c7 c8 s1 s2 s3 s4 s5 s6 s7 s8 mult : α) : α :=
  v.getD 0 0 * (c1 * mult + s1 * mult * |v.getD 0 0|)
  + v.getD 1 0 * (c2 * mult + s2 * mult * |v.getD 1 0|)
  - v.getD 2 0 * (c3 * mult + s3 * mult * |v.getD 2 0|)
  + v.getD 3 0 * (c4 * mult + s4 * mult * |v.getD 3 0|)
  - v.getD 4 0 * (c5 * mult + s5 * mult * |v.getD 4 0|)
  + v.getD 5 0 * (c6 * mult + s6 * mult * |v.getD 5 0|)
  - v.getD 6 0 * (c7 * mult + s7 * mult * |v.getD 6 0|)
  + v.getD 7 0 * (c8 * mult + s8 * mult * |v.getD 7 0|)

end CoreDefs

/-- Sign pattern of the 8-tap configuration as the spec states it: negative
at indices 2, 4 and 6, positive elsewhere. -/
def tapSign (i : Fin 8) : ℝ :=
  if i = 2 ∨ i = 4 ∨ i = 6 then -1 else 1

/-- Tap bank formula as the spec states it (section 4.3): the indexed sum
sign(i) * history[i] * (coeff[i] * multiplier + skew[i] * multiplier *
|history[i]|). Stated for comparison against `tapSum`. -/
def tapSumSpec (h c s : Fin 8 → ℝ) (mult : ℝ) : ℝ :=
  ∑ i, tapSign i * h i * (c i * mult + s i * mult * |h i|)

/-- Waveshaper (lib.rs 736-737): blend of the linear passthrough with the
sine drive, with fixed drive constant 1.2. -/
noncomputable def waveshape (x amount : ℝ) : ℝ :=
  (1 - amount) * x + amount * Real.sin (x * 1.2)

/-- Modelled from the spec: the nih_plug parameter smoother state (section
4.1 of the spec), not under src/. The linear law moves `current` one
bounded step toward `target` per `next` call and stays at `target` once
reached. -/
structure Smoother where
  current : ℝ
  target : ℝ
  stepSize : ℝ

/-- Modelled from the spec: one smoothing step (`smoothed.next()`); returns
the freshly advanced value together with the advanced state. -/
noncomputable def Smoother.next (s : Smoother) : ℝ × Smoother :=
  let d := s.target - s.current
  let step := if d < 0 then max d (-s.stepSize) else min d s.stepSize
  let v := s.current + step
  (v, ⟨v, s.target, s.stepSize⟩)

/-- Modelled from the spec: the plain (unsmoothed) parameter value read by
`.value()`, which is the smoothing target and does not advance the state. -/
def Smoother.value (s : Smoother) : ℝ := s.target

/-- State part of one smoothing step. -/
noncomputable def Smoother.step (s : Smoother) : Smoother := s.next.2

/-- Smoother state of every float parameter of the plugin
(GladeDeskParams, lib.rs 46-115). -/
structure ParamsState where
  free_gain : Smoother
  push_amount : Smoother
  multiplier : Smoother
  slider_1_coeff : Smoother
  slider_1_skew : Smoother
  slider_2_coeff : Smoother
  slider_2_skew : Smoother
  slider_3_coeff : Smoother
  slider_3_skew : Smoother
  slider_4_coeff : Smoother
  slider_4_skew : Smoother
  slider_5_coeff : Smoother
  slider_5_skew : Smoother
  slider_6_coeff : Smoother
  slider_6_skew : Smoother
  slider_7_coeff : Smoother
  slider_7_skew : Smoother
  slider_8_coeff : Smoother
  slider_8_skew : Smoother
  output_gain : Smoother
  dry_wet : Smoother

/-- Values read at the top of one frame (lib.rs 692-713). `gain` already
has `gain_to_db` applied, as at line 692. -/
structure FrameVals where
  gain : ℝ
  output_gain : ℝ
  slider_1_coeff : ℝ
  slider_2_coeff : ℝ
  slider_3_coeff : ℝ
  slider_4_coeff : ℝ
  slider_5_coeff : ℝ
  slider_6_coeff : ℝ
  slider_7_coeff : ℝ
  slider_8_coeff : ℝ
  slider_1_skew : ℝ
  slider_2_skew : ℝ
  slider_3_skew : ℝ
  slider_4_skew : ℝ
  slider_5_skew : ℝ
  slider_6_skew : ℝ
  slider_7_skew : ℝ
  slider_8_skew : ℝ
  push_amount : ℝ
  multiplier : ℝ
  dry_wet : ℝ

/-- Per-frame parameter reads (lib.rs 692-713): every parameter is read
through `smoothed.next()` except `dry_wet`, which is read through
`.value()` and whose smoother state is therefore left untouched. -/
noncomputable def readParams (p : ParamsState) : FrameVals × ParamsState :=
  ({ gain := gain_to_db p.free_gain.next.1
   , output_gain := p.output_gain.next.1
   , slider_1_coeff := p.slider_1_coeff.next.1
   , slider_2_coeff := p.slider_2_coeff.next.1
   , slider_3_coeff := p.slider_3_coeff.next.1
   , slider_4_coeff := p.slider_4_coeff.next.1
   , slider_5_coeff := p.slider_5_coeff.next.1
   , slider_6_coeff := p.slider_6_coeff.next.1
   , slider_7_coeff := p.slider_7_coeff.next.1
   , slider_8_coeff := p.slider_8_coeff.next.1
   , slider_1_skew := p.slider_1_skew.next.1
   , slider_2_skew := p.slider_2_skew.next.1
   , slider_3_skew := p.slider_3_skew.next.1
   , slider_4_skew := p.slider_4_skew.next.1
   , slider_5_skew := p.slider_5_skew.next.1
   , slider_6_skew := p.slider_6_skew.next.1
   , slider_7_skew := p.slider_7_skew.next.1
   , slider_8_skew := p.slider_8_skew.next.1
   , push_amount := p.push_amount.next.1
   , multiplier := p.multiplier.next.1
   , dry_wet := p.dry_wet.value },
   { free_gain := p.free_gain.step
   , push_amount := p.push_amount.step
   , multiplier := p.multiplier.step
   , slider_1_coeff := p.slider_1_coeff.step
   , slider_1_skew := p.slider_1_skew.step
   , slider_2_coeff := p.slider_2_coeff.step
   , slider_2_skew := p.slider_2_skew.step
   , slider_3_coeff := p.slider_3_coeff.step
   , slider_3_skew := p.slider_3_skew.step
   , slider_4_coeff := p.slider_4_coeff.step
   , slider_4_skew := p.slider_4_skew.step
   , slider_5_coeff := p.slider_5_coeff.step
   , slider_5_skew := p.slider_5_skew.step
   , slider_6_coeff := p.slider_6_coeff.step
   , slider_6_skew := p.slider_6_skew.step
   , slider_7_coeff := p.slider_7_coeff.step
   , slider_7_skew := p.slider_7_skew.step
   , slider_8_coeff := p.slider_8_coeff.step
   , slider_8_skew := p.slider_8_skew.step
   , output_gain := p.output_gain.step
   , dry_wet := p.dry_wet })

/-- Parameter states after n processed frames. -/
noncomputable def paramsIter (p : ParamsState) (n : ℕ) : ParamsState :=
  (fun q => (readParams q).2)^[n] p

/-- Mutable plugin state (struct GladeDesk, lib.rs 31-44): decay weight,
the two 8-entry history deques and the two meter scalars. -/
structure GladeDeskState where
  out_meter_decay_weight : ℝ
  left_vec : List ℝ
  right_vec : List ℝ
  in_meter : ℝ
  out_meter : ℝ

/-- Construction-time state (impl Default for GladeDesk, lib.rs 117-128):
decay weight 1.0, meters at the minus-infinity dB sentinel, both history
deques filled with eight zeros. -/
def defaultGladeDesk : GladeDeskState :=
  { out_meter_decay_weight := 1
  , left_vec := [0, 0, 0, 0, 0, 0, 0, 0]
  , right_vec := [0, 0, 0, 0, 0, 0, 0, 0]
  , in_meter := MINUS_INFINITY_DB
  , out_meter := MINUS_INFINITY_DB }

/-- Sample-rate (re)initialization (fn initialize, lib.rs 665-677): only
the meter decay weight is recomputed, as
0.25 ^ (1 / (sample_rate * PEAK_METER_DECAY_MS / 1000)); no other field is
touched. -/
noncomputable def initModel (st : GladeDeskState) (sample_rate : ℝ) : GladeDeskState :=
  { st with out_meter_decay_weight :=
      (0.25 : ℝ) ^ (sample_rate * PEAK_METER_DECAY_MS / 1000)⁻¹ }

/-- Reset hook (fn reset, lib.rs 866): an empty body, so the state is
returned unchanged. -/
def reset (st : GladeDeskState) : GladeDeskState := st

/-- One frame of fn process (lib.rs 685-848) after the parameter reads, for
one `channel_samples` group. The source indexes channels 0 and 1 with
`get_mut(i).unwrap()`; the unwrap of a missing channel is modelled as
`none`. -/
noncomputable def processFrame (editor_open : Bool) (v : FrameVals)
    (st : GladeDeskState) (channel_samples : List ℝ) :
    Option (List ℝ × GladeDeskState) :=
  match channel_samples.get? 0, channel_samples.get? 1 with
  | some l0, some r0 =>
    let num_samples := channel_samples.length
    let in_l0 := l0 * db_to_gain v.gain
    let in_r0 := r0 * db_to_gain v.gain
    let in_amplitude := in_l0 + in_r0
    let in_l := dnormGuard in_l0
    let in_r := dnormGuard in_r0
    let shaped_l := waveshape in_l v.push_amount
    let shaped_r := waveshape in_r v.push_amount
    let new_left := historyPush shaped_l st.left_vec
    let new_right := historyPush shaped_r st.right_vec
    let temp_l := tapSum new_left v.slider_1_coeff v.slider_2_coeff v.slider_3_coeff
      v.slider_4_coeff v.slider_5_coeff v.slider_6_coeff v.slider_7_coeff v.slider_8_coeff
      v.slider_1_skew v.slider_2_skew v.slider_3_skew v.slider_4_skew v.slider_5_skew
      v.slider_6_skew v.slider_7_skew v.slider_8_skew v.multiplier
    let temp_r := tapSum new_right v.slider_1_coeff v.slider_2_coeff v.slider_3_coeff
      v.slider_4_coeff v.slider_5_coeff v.slider_6_coeff v.slider_7_coeff v.slider_8_coeff
      v.slider_1_skew v.slider_2_skew v.slider_3_skew v.slider_4_skew v.slider_5_skew
      v.slider_6_skew v.slider_7_skew v.slider_8_skew v.multiplier
    let wet_gain := v.dry_wet
    let out_l := (in_l + temp_l * wet_gain) * v.output_gain
    let out_r := (in_r + temp_r * wet_gain) * v.output_gain
    let out_amplitude := out_l + out_r
    let new_in_meter :=
      if editor_open then
        meterUpdate st.in_meter (|in_amplitude / (num_samples : ℝ)|)
          st.out_meter_decay_weight
      else st.in_meter
    let new_out_meter :=
      if editor_open then
        meterUpdate st.out_meter (|out_amplitude / (num_samples : ℝ)|)
          st.out_meter_decay_weight
      else st.out_meter
    some ([out_l, out_r],
      { st with left_vec := new_left, right_vec := new_right,
                in_meter := new_in_meter, out_meter := new_out_meter })
  | _, _ => none

/-- Meter value after an impulse of amplitude A followed by n frames of
pure silence (instant amplitude 0 each frame). -/
noncomputable def meterSilence (A dw : ℝ) (n : ℕ) : ℝ :=
  (fun m => meterUpdate m 0 dw)^[n] A

/-- Decay weight that fn initialize computes at a 48 kHz sample rate. -/
noncomputable def decayWeight48k : ℝ :=
  (initModel defaultGladeDesk 48000).out_meter_decay_weight

/-- Concrete frame values: unit input and output gain (gain field 0 dB),
no push, all tap coefficients and skews 0, multiplier 1, dry/wet 0. -/
noncomputable def v0 : FrameVals :=
  { gain := 0, output_gain := 1
  , slider_1_coeff := 0, slider_2_coeff := 0, slider_3_coeff := 0
  , slider_4_coeff := 0, slider_5_coeff := 0, slider_6_coeff := 0
  , slider_7_coeff := 0, slider_8_coeff := 0
  , slider_1_skew := 0, slider_2_skew := 0, slider_3_skew := 0
  , slider_4_skew := 0, slider_5_skew := 0, slider_6_skew := 0
  , slider_7_skew := 0, slider_8_skew := 0
  , push_amount := 0, multiplier := 1, dry_wet := 0 }

/-- Concrete smoother mid-ramp: current 0, target 1, step 1/10. -/
noncomputable def midRamp : Smoother := ⟨0, 1, 1/10⟩

/-- Concrete parameter state with every smoother mid-ramp. -/
noncomputable def p0 : ParamsState :=
  { free_gain := midRamp, push_amount := midRamp, multiplier := midRamp
  , slider_1_coeff := midRamp, slider_1_skew := midRamp
  , slider_2_coeff := midRamp, slider_2_skew := midRamp
  , slider_3_coeff := midRamp, slider_3_skew := midRamp
  , slider_4_coeff := midRamp, slider_4_skew := midRamp
  , slider_5_coeff := midRamp, slider_5_skew := midRamp
  , slider_6_coeff := midRamp, slider_6_skew := midRamp
  , slider_7_coeff := midRamp, slider_7_skew := midRamp
  , slider_8_coeff := midRamp, slider_8_skew := midRamp
  , output_gain := midRamp, dry_wet := midRamp }

/-- Concrete state whose left history holds a nonzero sample. -/
def stNonzeroHist : GladeDeskState :=
  { defaultGladeDesk with left_vec := [1, 0, 0, 0, 0, 0, 0, 0] }


/-- C1: the tap-bank sum computed by the sequential accumulation in
fn process equals the indexed spec formula, with sign positive at indices
0, 1, 3, 5, 7 and negative at 2, 4, 6; with all coefficients 0.1, all
skews 0, multiplier 1 and a history of eight 1.0 samples it equals 0.2. -/
theorem tap_sum_matches_spec_formula :
    (∀ (h c s : Fin 8 → ℝ) (m : ℝ),
      tapSum [h 0, h 1, h 2, h 3, h 4, h 5, h 6, h 7]
        (c 0) (c 1) (c 2) (c 3) (c 4) (c 5) (c 6) (c 7)
        (s 0) (s 1) (s 2) (s 3) (s 4) (s 5) (s 6) (s 7) m = tapSumSpec h c s m)
    ∧ tapSum [(1 : ℝ), 1, 1, 1, 1, 1, 1, 1]
        0.1 0.1 0.1 0.1 0.1 0.1 0.1 0.1 0 0 0 0 0 0 0 0 1 = 0.2 := by
  constructor
  · intro h c s m
    simp [tapSum, tapSumSpec, tapSign, Fin.sum_univ_eight]
    ring
  · norm_num [tapSum]

/-- C5: the waveshaping stage computes (1 - amount) * x + amount *
sin(1.2 * x) with fixed drive constant 1.2: at amount 0 it is the identity,
at amount 1 it is exactly sin(1.2 * x); before shaping, any input with
magnitude below 1.18e-23 is replaced by the fixed nonzero floor
0.1 * 1.18e-17 = 1.18e-18. -/
theorem waveshape_identity_and_sine :
    (∀ x : ℝ, waveshape x 0 = x)
    ∧ (∀ x : ℝ, waveshape x 1 = Real.sin (1.2 * x))
    ∧ (∀ x : ℝ, |x| < 1.18e-23 → dnormGuard x = 0.1 * 1.18e-17)
    ∧ (0.1 * 1.18e-17 : ℝ) = 1.18e-18 := by
  refine ⟨fun x => by simp [waveshape],
          fun x => by simp [waveshape, mul_comm],
          fun x hx => by simp [dnormGuard, hx],
          by norm_num⟩

/-- Witness for C5 at the inputs x = 2 and x = 0. -/
theorem waveshape_identity_and_sine_w :
    waveshape 2 0 = 2 ∧ dnormGuard (0 : ℝ) = 0.1 * 1.18e-17 :=
  ⟨waveshape_identity_and_sine.1 2,
   waveshape_identity_and_sine.2.2.1 0 (by norm_num)⟩

/-- Lists of length eight are exactly the eight-element literals. -/
theorem list_length_eight {γ : Type} (h : List γ) (hl : h.length = 8) :
    ∃ b1 b2 b3 b4 b5 b6 b7 b8, h = [b1, b2, b3, b4, b5, b6, b7, b8] := by
  rcases h with _ | ⟨b1, h⟩; · simp at hl
  rcases h with _ | ⟨b2, h⟩; · simp at hl
  rcases h with _ | ⟨b3, h⟩; · simp at hl
  rcases h with _ | ⟨b4, h⟩; · simp at hl
  rcases h with _ | ⟨b5, h⟩; · simp at hl
  rcases h with _ | ⟨b6, h⟩; · simp at hl
  rcases h with _ | ⟨b7, h⟩; · simp at hl
  rcases h with _ | ⟨b8, h⟩; · simp at hl
  rcases h with _ | ⟨b9, h⟩
  · exact ⟨b1, b2, b3, b4, b5, b6, b7, b8, rfl⟩
  · simp at hl

/-- C8: each channel history always keeps exactly eight entries with the
newest at index 0 and the oldest at index 7; each insertion pushes the new
sample to the front and evicts the oldest; eight insertions of known values
leave exactly those values in reverse order of insertion, and a ninth
insertion evicts the first. -/
theorem history_eight_newest_first (x : ℝ) (h : List ℝ) (hl : h.length = 8)
    (a1 a2 a3 a4 a5 a6 a7 a8 a9 : ℝ) :
    (historyPush x h).length = 8
    ∧ (historyPush x h).getD 0 0 = x
    ∧ (∀ i : ℕ, i < 7 → (historyPush x h).getD (i + 1) 0 = h.getD i 0)
    ∧ historyPush a8 (historyPush a7 (historyPush a6 (historyPush a5
        (historyPush a4 (historyPush a3 (historyPush a2 (historyPush a1 h)))))))
        = [a8, a7, a6, a5, a4, a3, a2, a1]
    ∧ historyPush a9 [a8, a7, a6, a5, a4, a3, a2, a1]
        = [a9, a8, a7, a6, a5, a4, a3, a2] := by
  obtain ⟨b1, b2, b3, b4, b5, b6, b7, b8, rfl⟩ := list_length_eight h hl
  refine ⟨rfl, rfl, ?_, rfl, rfl⟩
  intro i hi
  interval_cases i <;> rfl

/-- Witness for C8 on the all-zero buffer with inserted values 1 to 9. -/
theorem history_eight_newest_first_w :
    historyPush 8 (historyPush 7 (historyPush 6 (historyPush 5 (historyPush 4
      (historyPush 3 (historyPush 2 (historyPush 1
        ([0, 0, 0, 0, 0, 0, 0, 0] : List ℝ))))))))
      = [8, 7, 6, 5, 4, 3, 2, 1] :=
  (history_eight_newest_first 0 [0, 0, 0, 0, 0, 0, 0, 0] rfl 1 2 3 4 5 6 7 8 9).2.2.2.1

/-- C3: fn process indexes channels 0 and 1 unconditionally through
`get_mut(i).unwrap()` (lib.rs 716-717), so the per-frame step fails on a
mono (single-channel) frame — the unwrap of the missing channel 1 panics,
modelled as `none` — while a stereo frame always completes. -/
theorem process_mono_frame_panics (eo : Bool) (v : FrameVals)
    (st : GladeDeskState) (x : ℝ) :
    processFrame eo v st [x] = none
    ∧ ∀ y : ℝ, (processFrame eo v st [x, y]).isSome = true :=
  ⟨rfl, fun _ => rfl⟩

/-- C2 (amended): per frame and per channel, the output equals the denormal
guarded gained input plus the tap-bank sum times dry/wet, the whole then
multiplied by the output gain; consequently at dry_wet = 0 the output is
the guarded gained input times the output gain, independent of the tap
coefficients and the history contents. -/
theorem output_additive_mix (eo : Bool) (v : FrameVals) (st : GladeDeskState)
    (l r : ℝ) :
    (processFrame eo v st [l, r]).map Prod.fst =
      some [(dnormGuard (l * db_to_gain v.gain)
              + tapSum (historyPush (waveshape (dnormGuard (l * db_to_gain v.gain))
                  v.push_amount) st.left_vec)
                v.slider_1_coeff v.slider_2_coeff v.slider_3_coeff v.slider_4_coeff
                v.slider_5_coeff v.slider_6_coeff v.slider_7_coeff v.slider_8_coeff
                v.slider_1_skew v.slider_2_skew v.slider_3_skew v.slider_4_skew
                v.slider_5_skew v.slider_6_skew v.slider_7_skew v.slider_8_skew
                v.multiplier * v.dry_wet) * v.output_gain,
            (dnormGuard (r * db_to_gain v.gain)
              + tapSum (historyPush (waveshape (dnormGuard (r * db_to_gain v.gain))
                  v.push_amount) st.right_vec)
                v.slider_1_coeff v.slider_2_coeff v.slider_3_coeff v.slider_4_coeff
                v.slider_5_coeff v.slider_6_coeff v.slider_7_coeff v.slider_8_coeff
                v.slider_1_skew v.slider_2_skew v.slider_3_skew v.slider_4_skew
                v.slider_5_skew v.slider_6_skew v.slider_7_skew v.slider_8_skew
                v.multiplier * v.dry_wet) * v.output_gain]
    ∧ (v.dry_wet = 0 →
        (processFrame eo v st [l, r]).map Prod.fst =
          some [dnormGuard (l * db_to_gain v.gain) * v.output_gain,
                dnormGuard (r * db_to_gain v.gain) * v.output_gain]) := by
  refine ⟨rfl, fun hdw => ?_⟩
  simp [processFrame, hdw]

/-- Witness for C2 at zero input samples with the concrete values v0
(dry/wet 0). -/
theorem output_additive_mix_w :
    (processFrame false v0 defaultGladeDesk [0, 0]).map Prod.fst =
      some [dnormGuard (0 * db_to_gain v0.gain) * v0.output_gain,
            dnormGuard (0 * db_to_gain v0.gain) * v0.output_gain] :=
  (output_additive_mix false v0 defaultGladeDesk 0 0).2 rfl

/-- C2 counterexample: with both input samples 0, unit gains, push 0 and
dry/wet 0, the frame outputs the denormal floor 0.1 * 1.18e-17 on each
channel, which differs from the gained input (0) times the output gain, so
the output is not gained_input + tap_sum * dry_wet. -/
theorem output_additive_mix_cex :
    (processFrame false v0 defaultGladeDesk [0, 0]).map Prod.fst
      = some [0.1 * 1.18e-17, 0.1 * 1.18e-17]
    ∧ (0.1 * 1.18e-17 : ℝ) ≠ (0 * db_to_gain v0.gain) * v0.output_gain := by
  constructor
  · norm_num [processFrame, v0, defaultGladeDesk, dnormGuard, waveshape,
      historyPush, tapSum, List.dropLast]
  · norm_num [v0]

/-- Iterating the per-frame parameter reads advances a smoother field by
exactly one smoothing step per frame, provided one frame steps it once. -/
theorem paramsIter_field (f : ParamsState → Smoother)
    (hf : ∀ q, f (readParams q).2 = (f q).step) (p : ParamsState) (n : ℕ) :
    f (paramsIter p n) = Smoother.step^[n] (f p) := by
  induction n with
  | zero => rfl
  | succ n ih =>
      have hstep : paramsIter p (n + 1) = (readParams (paramsIter p n)).2 := by
        simp only [paramsIter, Function.iterate_succ_apply']
      rw [hstep, hf, ih, Function.iterate_succ_apply']

/-- Iterating the per-frame parameter reads never touches the dry/wet
smoother state. -/
theorem paramsIter_dry_wet (p : ParamsState) (n : ℕ) :
    (paramsIter p n).dry_wet = p.dry_wet := by
  induction n with
  | zero => rfl
  | succ n ih =>
      have hstep : paramsIter p (n + 1) = (readParams (paramsIter p n)).2 := by
        simp only [paramsIter, Function.iterate_succ_apply']
      rw [hstep]
      exact ih

/-- C4 (amended): across processed frames every one of the twenty smoothed
parameters (input gain, push, multiplier, the sixteen slider coefficients
and skews, output gain) advances exactly once per frame - n frames give
exactly n smoothing steps - and the value each frame uses for them is the
freshly advanced smoothed value; the dry/wet smoother, by contrast, is
never advanced: the frame reads its plain target value through `.value()`
instead of a freshly advanced smoothed value. -/
theorem smoothers_advance_once_except_dry_wet (p : ParamsState) (n : ℕ) :
    (paramsIter p n).free_gain = Smoother.step^[n] p.free_gain
    ∧ (paramsIter p n).push_amount = Smoother.step^[n] p.push_amount
    ∧ (paramsIter p n).multiplier = Smoother.step^[n] p.multiplier
    ∧ (paramsIter p n).slider_1_coeff = Smoother.step^[n] p.slider_1_coeff
    ∧ (paramsIter p n).slider_2_coeff = Smoother.step^[n] p.slider_2_coeff
    ∧ (paramsIter p n).slider_3_coeff = Smoother.step^[n] p.slider_3_coeff
    ∧ (paramsIter p n).slider_4_coeff = Smoother.step^[n] p.slider_4_coeff
    ∧ (paramsIter p n).slider_5_coeff = Smoother.step^[n] p.slider_5_coeff
    ∧ (paramsIter p n).slider_6_coeff = Smoother.step^[n] p.slider_6_coeff
    ∧ (paramsIter p n).slider_7_coeff = Smoother.step^[n] p.slider_7_coeff
    ∧ (paramsIter p n).slider_8_coeff = Smoother.step^[n] p.slider_8_coeff
    ∧ (paramsIter p n).slider_1_skew = Smoother.step^[n] p.slider_1_skew
    ∧ (paramsIter p n).slider_2_skew = Smoother.step^[n] p.slider_2_skew
    ∧ (paramsIter p n).slider_3_skew = Smoother.step^[n] p.slider_3_skew
    ∧ (paramsIter p n).slider_4_skew = Smoother.step^[n] p.slider_4_skew
    ∧ (paramsIter p n).slider_5_skew = Smoother.step^[n] p.slider_5_skew
    ∧ (paramsIter p n).slider_6_skew = Smoother.step^[n] p.slider_6_skew
    ∧ (paramsIter p n).slider_7_skew = Smoother.step^[n] p.slider_7_skew
    ∧ (paramsIter p n).slider_8_skew = Smoother.step^[n] p.slider_8_skew
    ∧ (paramsIter p n).output_gain = Smoother.step^[n] p.output_gain
    ∧ (paramsIter p n).dry_wet = p.dry_wet
    ∧ (readParams p).1.dry_wet = p.dry_wet.target
    ∧ (readParams p).1.gain = gain_to_db (p.free_gain.next).1
    ∧ (readParams p).1.output_gain = (p.output_gain.next).1
    ∧ (readParams p).1.slider_1_coeff = (p.slider_1_coeff.next).1
    ∧ (readParams p).1.slider_2_coeff = (p.slider_2_coeff.next).1
    ∧ (readParams p).1.slider_3_coeff = (p.slider_3_coeff.next).1
    ∧ (readParams p).1.slider_4_coeff = (p.slider_4_coeff.next).1
    ∧ (readParams p).1.slider_5_coeff = (p.slider_5_coeff.next).1
    ∧ (readParams p).1.slider_6_coeff = (p.slider_6_coeff.next).1
    ∧ (readParams p).1.slider_7_coeff = (p.slider_7_coeff.next).1
    ∧ (readParams p).1.slider_8_coeff = (p.slider_8_coeff.next).1
    ∧ (readParams p).1.slider_1_skew = (p.slider_1_skew.next).1
    ∧ (readParams p).1.slider_2_skew = (p.slider_2_skew.next).1
    ∧ (readParams p).1.slider_3_skew = (p.slider_3_skew.next).1
    ∧ (readParams p).1.slider_4_skew = (p.slider_4_skew.next).1
    ∧ (readParams p).1.slider_5_skew = (p.slider_5_skew.next).1
    ∧ (readParams p).1.slider_6_skew = (p.slider_6_skew.next).1
    ∧ (readParams p).1.slider_7_skew = (p.slider_7_skew.next).1
    ∧ (readParams p).1.slider_8_skew = (p.slider_8_skew.next).1
    ∧ (readParams p).1.push_amount = (p.push_amount.next).1
    ∧ (readParams p).1.multiplier = (p.multiplier.next).1 :=
  ⟨paramsIter_field (fun q => q.free_gain) (fun _ => rfl) p n,
   paramsIter_field (fun q => q.push_amount) (fun _ => rfl) p n,
   paramsIter_field (fun q => q.multiplier) (fun _ => rfl) p n,
   paramsIter_field (fun q => q.slider_1_coeff) (fun _ => rfl) p n,
   paramsIter_field (fun q => q.slider_2_coeff) (fun _ => rfl) p n,
   paramsIter_field (fun q => q.slider_3_coeff) (fun _ => rfl) p n,
   paramsIter_field (fun q => q.slider_4_coeff) (fun _ => rfl) p n,
   paramsIter_field (fun q => q.slider_5_coeff) (fun _ => rfl) p n,
   paramsIter_field (fun q => q.slider_6_coeff) (fun _ => rfl) p n,
   paramsIter_field (fun q => q.slider_7_coeff) (fun _ => rfl) p n,
   paramsIter_field (fun q => q.slider_8_coeff) (fun _ => rfl) p n,
   paramsIter_field (fun q => q.slider_1_skew) (fun _ => rfl) p n,
   paramsIter_field (fun q => q.slider_2_skew) (fun _ => rfl) p n,
   paramsIter_field (fun q => q.slider_3_skew) (fun _ => rfl) p n,
   paramsIter_field (fun q => q.slider_4_skew) (fun _ => rfl) p n,
   paramsIter_field (fun q => q.slider_5_skew) (fun _ => rfl) p n,
   paramsIter_field (fun q => q.slider_6_skew) (fun _ => rfl) p n,
   paramsIter_field (fun q => q.slider_7_skew) (fun _ => rfl) p n,
   paramsIter_field (fun q => q.slider_8_skew) (fun _ => rfl) p n,
   paramsIter_field (fun q => q.output_gain) (fun _ => rfl) p n,
   paramsIter_dry_wet p n,
   rfl,
   rfl,
   rfl,
   rfl,
   rfl,
   rfl,
   rfl,
   rfl,
   rfl,
   rfl,
   rfl,
   rfl,
   rfl,
   rfl,
   rfl,
   rfl,
   rfl,
   rfl,
   rfl,
   rfl,
   rfl⟩

/-- C4 counterexample: with the dry/wet smoother mid-ramp (current 0,
target 1, step 1/10), a frame leaves that smoother state unadvanced
(current stays 0 while one smoothing step would move it to 1/10), and the
value the frame uses is the target 1, not the freshly advanced smoothed
value 1/10. -/
theorem dry_wet_not_advanced_cex :
    (readParams p0).2.dry_wet.current = 0
    ∧ ((p0.dry_wet.next).2).current = 1 / 10
    ∧ (readParams p0).1.dry_wet = 1
    ∧ (p0.dry_wet.next).1 = 1 / 10
    ∧ (1 : ℝ) ≠ 1 / 10 := by
  refine ⟨rfl, ?_, rfl, ?_, by norm_num⟩
  · norm_num [p0, midRamp, Smoother.next, min_def]
  · norm_num [p0, midRamp, Smoother.next, min_def]

/-- Meter value after n frames of pure silence following an impulse of
amplitude A: the geometric sequence A * dw ^ n. -/
theorem meterSilence_eq (A dw : ℝ) (hA : 0 < A) (hdw : 0 < dw) :
    ∀ n, meterSilence A dw n = A * dw ^ n := by
  intro n
  induction n with
  | zero => simp [meterSilence]
  | succ n ih =>
      have hpos : 0 < A * dw ^ n := by positivity
      have hsucc : meterSilence A dw (n + 1)
          = meterUpdate (meterSilence A dw n) 0 dw := by
        simp only [meterSilence, Function.iterate_succ_apply']
      rw [hsucc, ih, meterUpdate, if_neg (not_lt.mpr hpos.le), pow_succ]
      ring

/-- C6: the peak meter attacks instantaneously whenever the instant
amplitude exceeds the stored value and otherwise decays by the one-pole
blend meter * dw + inst * (1 - dw); after an impulse of amplitude A > 0,
frames of silence give a strictly decreasing sequence converging toward 0
whose value after one decay step is exactly A * dw. -/
theorem meter_impulse_strict_decay (A dw : ℝ) (hA : 0 < A)
    (h0 : 0 < dw) (h1 : dw < 1) :
    (∀ m inst : ℝ, inst > m → meterUpdate m inst dw = inst)
    ∧ meterSilence A dw 1 = A * dw
    ∧ StrictAnti (meterSilence A dw)
    ∧ Filter.Tendsto (meterSilence A dw) Filter.atTop (nhds 0) := by
  refine ⟨fun m inst h => if_pos h, ?_, ?_, ?_⟩
  · rw [meterSilence_eq A dw hA h0 1, pow_one]
  · intro a b hab
    rw [meterSilence_eq A dw hA h0 a, meterSilence_eq A dw hA h0 b]
    exact mul_lt_mul_of_pos_left (pow_lt_pow_right_of_lt_one₀ h0 h1 hab) hA
  · have h2 : Filter.Tendsto (fun n : ℕ => A * dw ^ n) Filter.atTop (nhds (A * 0)) :=
      (tendsto_pow_atTop_nhds_zero_of_lt_one h0.le h1).const_mul A
    rw [mul_zero] at h2
    exact h2.congr fun n => (meterSilence_eq A dw hA h0 n).symm

/-- Witness for C6 at amplitude 1 and decay weight 1/2. -/
theorem meter_impulse_strict_decay_w :
    meterSilence 1 (1 / 2) 1 = 1 * (1 / 2) ∧ StrictAnti (meterSilence 1 (1 / 2)) :=
  ⟨(meter_impulse_strict_decay 1 (1 / 2) (by norm_num) (by norm_num) (by norm_num)).2.1,
   (meter_impulse_strict_decay 1 (1 / 2) (by norm_num) (by norm_num) (by norm_num)).2.2.1⟩

/-- Decay weight at 48 kHz as a power: 0.25 to the 1/4800. -/
theorem decayWeight48k_eq : decayWeight48k = (0.25 : ℝ) ^ ((4800 : ℝ))⁻¹ := by
  norm_num [decayWeight48k, initModel, PEAK_METER_DECAY_MS]

/-- Positivity of the 48 kHz decay weight. -/
theorem decayWeight48k_pos : 0 < decayWeight48k := by
  rw [decayWeight48k_eq]
  exact Real.rpow_pos_of_pos (by norm_num) _

/-- The 48 kHz decay weight is below one. -/
theorem decayWeight48k_lt_one : decayWeight48k < 1 := by
  rw [decayWeight48k_eq]
  exact Real.rpow_lt_one (by norm_num) (by norm_num) (by norm_num)

/-- The 4800th power of the 48 kHz decay weight is 0.25. -/
theorem decayWeight48k_pow : decayWeight48k ^ (4800 : ℕ) = 0.25 := by
  rw [decayWeight48k_eq, ← Real.rpow_natCast ((0.25 : ℝ) ^ ((4800 : ℝ))⁻¹) 4800,
    ← Real.rpow_mul (by norm_num)]
  have h : ((4800 : ℝ))⁻¹ * ((4800 : ℕ) : ℝ) = 1 := by norm_num
  rw [h, Real.rpow_one]

/-- The 48 kHz decay weight exceeds 0.999. -/
theorem decayWeight48k_gt : 0.999 < decayWeight48k := by
  by_contra hc
  push_neg at hc
  have h1 : decayWeight48k ^ (4800 : ℕ) ≤ (0.999 : ℝ) ^ (4800 : ℕ) :=
    pow_le_pow_left₀ decayWeight48k_pos.le hc 4800
  have h48 : ((0.999 : ℝ)) ^ (48 : ℕ) ≤ 0.98 := by norm_num
  have hsplit : ((0.999 : ℝ)) ^ (4800 : ℕ) = (((0.999 : ℝ)) ^ (48 : ℕ)) ^ (100 : ℕ) := by
    rw [← pow_mul]
  have h2 : (((0.999 : ℝ)) ^ (48 : ℕ)) ^ (100 : ℕ) ≤ ((0.98 : ℝ)) ^ (100 : ℕ) :=
    pow_le_pow_left₀ (by positivity) h48 100
  have h3 : ((0.98 : ℝ)) ^ (100 : ℕ) < 0.25 := by norm_num
  rw [decayWeight48k_pow, hsplit] at h1
  linarith

/-- C7 counterexample: the decay weight that fn initialize computes at
sample rate 48000 exceeds 0.999, hence is not within 0.005 of 0.9716; the
meter that reads it after a unit impulse and one silent frame therefore
also differs from 0.9716. -/
theorem decay_weight_not_0_9716 :
    ¬ |decayWeight48k - 0.9716| ≤ 0.005
    ∧ meterUpdate (meterUpdate defaultGladeDesk.out_meter 1 decayWeight48k) 0
        decayWeight48k = decayWeight48k := by
  constructor
  · intro habs
    have h2 := decayWeight48k_gt
    have h3 := abs_le.mp habs
    linarith [h3.2]
  · have him : meterUpdate defaultGladeDesk.out_meter 1 decayWeight48k = 1 := by
      rw [meterUpdate,
        if_pos (show (1 : ℝ) > defaultGladeDesk.out_meter by
          norm_num [defaultGladeDesk, MINUS_INFINITY_DB])]
    rw [him, meterUpdate, if_neg (by norm_num)]
    ring

/-- C7 (amended): at sample rate 48000 with decay_ms = 100 the computed
decay weight 0.25 ^ (1/4800) lies strictly between 0.999 and 1
(approximately 0.99971, not 0.9716); after feeding amplitude 1.0 once and
then silence, the meter reads exactly the decay weight after one frame and
exactly its square after two frames. -/
theorem decay_weight_48k_value :
    0.999 < decayWeight48k
    ∧ decayWeight48k < 1
    ∧ meterUpdate (meterUpdate defaultGladeDesk.out_meter 1 decayWeight48k) 0
        decayWeight48k = decayWeight48k
    ∧ meterUpdate (meterUpdate (meterUpdate defaultGladeDesk.out_meter 1
        decayWeight48k) 0 decayWeight48k) 0 decayWeight48k
        = decayWeight48k * decayWeight48k := by
  have him : meterUpdate defaultGladeDesk.out_meter 1 decayWeight48k = 1 := by
    rw [meterUpdate,
      if_pos (show (1 : ℝ) > defaultGladeDesk.out_meter by
        norm_num [defaultGladeDesk, MINUS_INFINITY_DB])]
  have hone : meterUpdate 1 0 decayWeight48k = decayWeight48k := by
    rw [meterUpdate, if_neg (by norm_num)]
    ring
  refine ⟨decayWeight48k_gt, decayWeight48k_lt_one, by rw [him, hone], ?_⟩
  rw [him, hone, meterUpdate, if_neg (not_lt.mpr decayWeight48k_pos.le)]
  ring

/-- C9 counterexample: at construction both stored meter values are the
minus-infinity dB sentinel -100, a negative number, so the stored meter
value is not a non-negative amplitude from its initial state onward. -/
theorem meter_initial_negative_cex :
    defaultGladeDesk.in_meter = -100
    ∧ defaultGladeDesk.out_meter = -100
    ∧ ¬ (0 : ℝ) ≤ defaultGladeDesk.in_meter :=
  ⟨rfl, rfl, by norm_num [defaultGladeDesk, MINUS_INFINITY_DB]⟩

/-- C9 (amended): every meter update with a non-negative instant amplitude
and a decay weight in [0, 1] sets the stored value to the greater of the
instant peak and the decayed previous value, and keeps it non-negative once
it is non-negative; the initial stored value, however, is the negative
sentinel MINUS_INFINITY_DB, and the first such update replaces it with the
instant amplitude. -/
theorem meter_update_is_max (m inst dw : ℝ) (hi : 0 ≤ inst) (h0 : 0 ≤ dw)
    (h1 : dw ≤ 1) :
    meterUpdate m inst dw = max inst (m * dw + inst * (1 - dw))
    ∧ (0 ≤ m → 0 ≤ meterUpdate m inst dw)
    ∧ meterUpdate MINUS_INFINITY_DB inst dw = inst := by
  refine ⟨?_, ?_, ?_⟩
  · by_cases hc : inst > m
    · have hle : m * dw + inst * (1 - dw) ≤ inst := by
        nlinarith [mul_nonneg h0 (by linarith : (0 : ℝ) ≤ inst - m)]
      rw [meterUpdate, if_pos hc, max_eq_left hle]
    · push_neg at hc
      have hle : inst ≤ m * dw + inst * (1 - dw) := by
        nlinarith [mul_nonneg h0 (by linarith : (0 : ℝ) ≤ m - inst)]
      rw [meterUpdate, if_neg (not_lt.mpr hc), max_eq_right hle]
  · intro hm
    by_cases hc : inst > m
    · rw [meterUpdate, if_pos hc]
      exact hi
    · rw [meterUpdate, if_neg hc]
      nlinarith [mul_nonneg hm h0, mul_nonneg hi (by linarith : (0 : ℝ) ≤ 1 - dw)]
  · rw [meterUpdate,
      if_pos (show inst > MINUS_INFINITY_DB by unfold MINUS_INFINITY_DB; linarith)]

/-- Witness for C9 at m = 5, inst = 2, dw = 1/2. -/
theorem meter_update_is_max_w :
    meterUpdate (5 : ℝ) 2 (1 / 2) = max 2 (5 * (1 / 2) + 2 * (1 - 1 / 2))
    ∧ meterUpdate MINUS_INFINITY_DB (2 : ℝ) (1 / 2) = 2 :=
  ⟨(meter_update_is_max 5 2 (1 / 2) (by norm_num) (by norm_num) (by norm_num)).1,
   (meter_update_is_max 5 2 (1 / 2) (by norm_num) (by norm_num) (by norm_num)).2.2⟩

/-- C10 (amended): re-initialization recomputes the meter decay weight from
the new sample rate as 0.25 ^ (1 / (sample_rate * 100 / 1000)), but does
not reset the channel histories: initModel leaves both history buffers
untouched, and fn reset is a no-op. -/
theorem init_recomputes_weight_only (st : GladeDeskState) (sr : ℝ) :
    (initModel st sr).out_meter_decay_weight
      = (0.25 : ℝ) ^ (sr * PEAK_METER_DECAY_MS / 1000)⁻¹
    ∧ (initModel st sr).left_vec = st.left_vec
    ∧ (initModel st sr).right_vec = st.right_vec
    ∧ reset st = st :=
  ⟨rfl, rfl, rfl, rfl⟩

/-- C10 counterexample: a state whose left history holds a nonzero sample
keeps it unchanged across re-initialization at 48 kHz, so the history
buffers are not reset to all zeros; fn reset also returns the state
unchanged. -/
theorem init_does_not_reset_history_cex :
    (initModel stNonzeroHist 48000).left_vec = [1, 0, 0, 0, 0, 0, 0, 0]
    ∧ (initModel stNonzeroHist 48000).left_vec ≠ List.replicate 8 (0 : ℝ)
    ∧ reset stNonzeroHist = stNonzeroHist := by
  refine ⟨rfl, ?_, rfl⟩
  have h : (initModel stNonzeroHist 48000).left_vec = [1, 0, 0, 0, 0, 0, 0, 0] := rfl
  rw [h]
  simp [List.replicate]

end GladeDesk
